import Mathlib

/-!
Verification of the `dss` repository (a minimal shell) against its
natural-language specification.

The development shallowly embeds the three C source files:

* `src/c/pipe.c`    — pipeline orchestration (`fork_pipes`, `spawn_proc`);
* `src/c/stage1_shell.c` — the interactive shell loop (`main`, `get_input`);
* `src/c/cd.c`      — the standalone directory-change utility (`main`).

Side-effecting system calls are modelled by explicit event traces and by
oracles (`Bool`-valued functions) for the outcomes of `fork`, `chdir`,
`execvp` and `getcwd`.  File descriptors are modelled as fresh natural
numbers handed out by a counter starting at 3 (0/1/2 are the standard
descriptors); POSIX lowest-free numbering would reuse the numbers of closed
descriptors, but no property below depends on the numeric value of a
descriptor, only on the identity of pipe ends.
-/

/-! ## Model of `src/c/pipe.c` -/

/-- Observable events of the pipeline orchestrator `fork_pipes`.
`pipeCreated r w` records `pipe(fd)` returning read end `r` and write end
`w`; `spawned i stdinFd stdoutFd` records `spawn_proc(in, fd[1], cmd + i)`
creating a child whose effective standard input is `stdinFd` and whose
effective standard output is `stdoutFd` (the child `dup2`s them onto 0
and 1); `parentClosed fd` records `close(fd)` in the orchestrator;
`waited pid` would record a `wait`-family call (the source contains none);
`execSelf i stdinFd stdoutFd` records the final `execvp` replacing the
orchestrator's own image with stage `i`, after `dup2(in, 0)` when
`in != 0`.  The two debug `printf` calls of the source write to the
orchestrator's standard output and are not recorded; no claim concerns
them. -/
inductive PEvent where
  | pipeCreated (r w : Nat)
  | spawned (stage : Nat) (stdinFd stdoutFd : Nat)
  | parentClosed (fd : Nat)
  | waited (pid : Nat)
  | execSelf (stage : Nat) (stdinFd stdoutFd : Nat)
  deriving DecidableEq, Repr

/-- Orchestrator state: the counter for fresh descriptor numbers, the
rolling `in` descriptor of `fork_pipes`, the descriptors the orchestrating
process currently holds open beyond 0/1/2, and the event trace so far. -/
structure OrchSt where
  nextFd : Nat
  inFd : Nat
  openFds : List Nat
  events : List PEvent
  deriving DecidableEq, Repr

/-- One iteration of the `for` loop of `fork_pipes` (stage `i`):
`pipe(fd)`, then `spawn_proc(in, fd[1], cmd + i)`, then `close(fd[1])`,
then `in = fd[0]`. -/
def loopBody (i : Nat) (st : OrchSt) : OrchSt :=
  let r := st.nextFd
  let w := st.nextFd + 1
  { nextFd := st.nextFd + 2,
    inFd := r,
    openFds := (st.openFds ++ [r, w]).filter (fun x => decide (x ≠ w)),
    events := st.events ++
      [PEvent.pipeCreated r w, PEvent.spawned i st.inFd w,
       PEvent.parentClosed w] }

/-- The loop `for (i = 0; i < n - 1; ++i)` of `fork_pipes`, with `k`
iterations remaining and `i` the current loop index. -/
def runLoop : Nat → Nat → OrchSt → OrchSt
  | 0, _, st => st
  | Nat.succ k, i, st => runLoop k (i + 1) (loopBody i st)

/-- Initial orchestrator state: `in = 0`, no extra descriptors open, first
fresh descriptor number 3. -/
def initSt : OrchSt := { nextFd := 3, inFd := 0, openFds := [], events := [] }

/-- `fork_pipes(n, cmd)`: run the loop for stages `0 .. n-2`, then
`if (in != 0) dup2(in, 0);` and `execvp(cmd[i])` with `i = n - 1`,
replacing the orchestrator's own process image.  The effective standard
input of the exec'd terminal stage is the rolling `in` descriptor (equal
to 0, the original standard input, when no pipe was made) and its standard
output is the original descriptor 1, which `fork_pipes` never rebinds. -/
def forkPipes (n : Nat) : OrchSt :=
  let st := runLoop (n - 1) 0 initSt
  { st with events := st.events ++ [PEvent.execSelf (n - 1) st.inFd 1] }

/-- Read end of the `i`-th pipe allocated by the model's counter. -/
def readEnd (i : Nat) : Nat := 3 + 2 * i

/-- Write end of the `i`-th pipe allocated by the model's counter. -/
def writeEnd (i : Nat) : Nat := readEnd i + 1

/-- The events `fork_pipes` produces for non-terminal stage `i`: a fresh
pipe, a child spawned with standard input the rolling current-input
descriptor (original standard input for stage 0, the previous pipe's read
end otherwise) and standard output the new pipe's write end, and the
orchestrator closing its copy of that write end. -/
def stageTrace (i : Nat) : List PEvent :=
  [PEvent.pipeCreated (readEnd i) (writeEnd i),
   PEvent.spawned i (if i = 0 then 0 else readEnd (i - 1)) (writeEnd i),
   PEvent.parentClosed (writeEnd i)]

/-- Recognizer for `waited` events. -/
def isWaitEvent : PEvent → Bool
  | PEvent.waited _ => true
  | _ => false

/-- Recognizer for `spawned` events. -/
def isSpawnEvent : PEvent → Bool
  | PEvent.spawned _ _ _ => true
  | _ => false

/-- Actions of the child side of `spawn_proc` in `pipe.c`. -/
inductive ChildAct where
  | dup2 (oldFd newFd : Nat)
  | closeFd (fd : Nat)
  | execvp (stage : Nat)
  deriving DecidableEq, Repr

/-- How the child side of `spawn_proc` ends.  `replaced` means `execvp`
succeeded and the child became the target program. `returnedToCaller ret`
means `execvp` failed and `return execvp(...)` returned `ret` from
`spawn_proc` *inside the child*, so the child resumes the orchestrator's
own code after the `spawn_proc` call site.  `exited code` would model a
call to `exit(code)`; the child side of `spawn_proc` contains none. -/
inductive ChildTermination where
  | replaced
  | returnedToCaller (ret : Int)
  | exited (code : Nat)
  deriving DecidableEq, Repr

/-- Child side of `spawn_proc(in, out, cmd)` for stage `stage`:
`if (in != 0) { dup2(in, 0); close(in); }`,
`if (out != 1) { dup2(out, 1); close(out); }`,
then `return execvp(cmd->argv[0], ...)`.  `execOk` is the oracle for
whether `execvp` succeeds; on failure `execvp` returns `-1` and
`spawn_proc` returns that value in the child — no diagnostic is printed
and no `exit` is called on that path. -/
def spawnProcChild (inFd outFd stage : Nat) (execOk : Bool) :
    List ChildAct × ChildTermination :=
  let acts1 := if inFd ≠ 0 then [ChildAct.dup2 inFd 0, ChildAct.closeFd inFd] else []
  let acts2 := if outFd ≠ 1 then [ChildAct.dup2 outFd 1, ChildAct.closeFd outFd] else []
  let acts := acts1 ++ acts2 ++ [ChildAct.execvp stage]
  if execOk then (acts, ChildTermination.replaced)
  else (acts, ChildTermination.returnedToCaller (-1))

/-! ## Model of `src/c/stage1_shell.c` -/

/-- Accumulator loop of the tokenizer: `strtok(input, " ")` repeatedly,
collecting maximal runs of non-space characters.  `cur` holds the
characters of the token being built, in reverse. -/
def tokenizeAux : List Char → List Char → List (List Char)
  | [], cur => if cur = [] then [] else [cur.reverse]
  | c :: rest, cur =>
    if c = ' ' then
      if cur = [] then tokenizeAux rest []
      else cur.reverse :: tokenizeAux rest []
    else tokenizeAux rest (c :: cur)

/-- `get_input`'s tokenization of one line: `strtok` with separator `" "`,
i.e. the maximal space-free non-empty substrings, in order. -/
def tokenize (line : String) : List String :=
  (tokenizeAux line.toList []).map List.asString

/-- The indices into the 8-slot `malloc(8 * sizeof(char *))` buffer that
`get_input` writes: `command[index] = parsed` for each token (indices
`0 .. len-1`) and the terminating `command[index] = NULL` at index `len`.
No bounds check is performed on any of these stores. -/
def getInputStores (line : String) : List Nat :=
  List.range (tokenize line).length ++ [(tokenize line).length]

/-- Observable output events of the shell loop and its children. -/
inductive SEvent where
  | stderrMsg (s : String)
  | stdoutMsg (s : String)
  deriving DecidableEq, Repr

/-- How the `child_pid == 0` branch of the shell's `main` ends.
`execReplaced prog` — `execvp` succeeded, the child became `prog`;
`childExit code` — the child called `exit(code)`;
`fellThroughToLoop` — control fell out of the branch back to the
`while (1)` loop body's tail (`free`/`free`) and the child re-enters the
loop as a second shell (this is what happens after the `cd` branch, which
contains no `exit`). -/
inductive ChildResult where
  | execReplaced (prog : String)
  | childExit (code : Nat)
  | fellThroughToLoop
  deriving DecidableEq, Repr

/-- The observable run of the forked child: its working directory when the
branch ends, the output events it produced, and how the branch ended. -/
structure ChildRun where
  cwd : String
  events : List SEvent
  result : ChildResult
  deriving DecidableEq, Repr

/-- What one iteration of the parent's `while (1)` loop does to the loop
itself. -/
inductive LoopResult where
  | continueLoop
  | exitedShell (code : Nat)
  deriving DecidableEq, Repr

/-- Outcome of one iteration of the shell loop in the parent process:
the parent's working directory afterwards, the output the parent printed,
whether the parent reached `waitpid`, whether a child was created, the
child's run (if one was forked), and whether the loop continues. -/
structure IterOutcome where
  parentCwd : String
  parentEvents : List SEvent
  loopResult : LoopResult
  forkedChild : Bool
  waitedOnChild : Bool
  child : Option ChildRun
  deriving DecidableEq, Repr

/-- The `child_pid == 0` branch of `main` in `stage1_shell.c`, given the
child's inherited working directory `cwd0` and the tokenized command
`prog :: argTail`.  The `cd` branch runs `chdir(command[1])` (when no
argument is present, `command[1]` is the terminating `NULL` and `chdir`
fails with `EFAULT`), prints `perror("chdir() result")` on failure, then
`cwd()` prints the child's current directory, and control falls out of the
branch — there is no `exit`, so the child re-enters the shell loop.  The
non-builtin branch runs `execvp`; on failure it prints
`perror(command[0])` (modelled as a stderr message naming the program) and
calls `exit(1)`.  `getcwd` inside `cwd()` is modelled as succeeding and
reporting the tracked working directory. -/
def runChild (cwd0 prog : String) (argTail : List String)
    (chdirOk : String → Bool) (execOk : String → Bool) : ChildRun :=
  if prog = "cd" then
    let ok : Bool := match argTail.head? with
      | some p => chdirOk p
      | none => false
    let newCwd : String := match argTail.head? with
      | some p => if chdirOk p then p else cwd0
      | none => cwd0
    let diag : List SEvent :=
      if ok then [] else [SEvent.stderrMsg "chdir() result"]
    { cwd := newCwd,
      events := diag ++ [SEvent.stdoutMsg ("Current Working Directory: " ++ newCwd)],
      result := ChildResult.fellThroughToLoop }
  else
    if execOk prog then
      { cwd := cwd0, events := [], result := ChildResult.execReplaced prog }
    else
      { cwd := cwd0, events := [SEvent.stderrMsg prog],
        result := ChildResult.childExit 1 }

/-- One iteration of the `while (1)` loop of `main` in `stage1_shell.c`,
as seen by the parent.  `cwd0` is the parent's working directory, `line`
the line returned by `readline`, `forkOk` the oracle for `fork`
succeeding.  An empty command (`!command[0]`) frees and `continue`s with
no fork and no output.  A failed fork runs `perror("Fork failed")` and
`exit(1)`, terminating the entire shell.  Otherwise the child runs
`runChild` on its copy of the state and the parent runs
`waitpid(child_pid, &stat_loc, WUNTRACED)` and continues the loop. -/
def shellIter (cwd0 line : String) (forkOk : Bool)
    (chdirOk : String → Bool) (execOk : String → Bool) : IterOutcome :=
  match tokenize line with
  | [] =>
    { parentCwd := cwd0, parentEvents := [], loopResult := LoopResult.continueLoop,
      forkedChild := false, waitedOnChild := false, child := none }
  | prog :: argTail =>
    if forkOk then
      { parentCwd := cwd0, parentEvents := [],
        loopResult := LoopResult.continueLoop,
        forkedChild := true, waitedOnChild := true,
        child := some (runChild cwd0 prog argTail chdirOk execOk) }
    else
      { parentCwd := cwd0, parentEvents := [SEvent.stderrMsg "Fork failed"],
        loopResult := LoopResult.exitedShell 1,
        forkedChild := false, waitedOnChild := false, child := none }

/-- `true` exactly when the child's branch ended in `exit(code)` with a
non-zero `code`. -/
def childExitedNonzero (c : ChildRun) : Bool :=
  match c.result with
  | ChildResult.childExit code => code != 0
  | _ => false

/-! ## Model of `src/c/cd.c` -/

/-- Output of the standalone utility, tagged by stream. -/
inductive COut where
  | toStdout (s : String)
  | toStderr (s : String)
  deriving DecidableEq, Repr

/-- Result of a run of `cd.c`'s `main`: process exit code and output. -/
structure CdOutcome where
  exitCode : Nat
  output : List COut
  deriving DecidableEq, Repr

/-- `main(argc, argv)` of `src/c/cd.c`: if `argc != 2`, print
`"invalid args"` and return 1.  Otherwise `chdir(argv[1])`, printing
`perror("chdir() result")` on failure; then `cwd()` prints the current
working directory (or `perror("getcwd() error")` when `getcwd` fails,
controlled by the oracle `getcwdOk`); then return 0.  `startCwd` is the
working directory the process starts in; after a successful `chdir` the
current directory is the target path. -/
def cdMain (argv : List String) (startCwd : String)
    (chdirOk : String → Bool) (getcwdOk : Bool) : CdOutcome :=
  match argv with
  | [_, path] =>
    let newCwd := if chdirOk path then path else startCwd
    let diag : List COut :=
      if chdirOk path then [] else [COut.toStderr "chdir() result"]
    let cwdOut : List COut :=
      if getcwdOk then [COut.toStdout ("Current Working Directory: " ++ newCwd)]
      else [COut.toStderr "getcwd() error"]
    { exitCode := 0, output := diag ++ cwdOut }
  | _ => { exitCode := 1, output := [COut.toStdout "invalid args"] }

/-! ### Closed-form characterization of `fork_pipes` -/

lemma loopBody_openFds (i : Nat) (st : OrchSt) (h1 : st.nextFd = readEnd i)
    (h3 : ∀ x ∈ st.openFds, x < st.nextFd) :
    (loopBody i st).openFds = st.openFds ++ [readEnd i] := by
  simp only [loopBody, List.filter_append]
  have hfix : st.openFds.filter (fun x => decide (x ≠ st.nextFd + 1)) = st.openFds := by
    apply List.filter_eq_self.mpr
    intro x hx
    have := h3 x hx
    simp only [decide_eq_true_eq]
    omega
  rw [hfix, h1]
  simp [writeEnd]

lemma loopBody_events (i : Nat) (st : OrchSt) (h1 : st.nextFd = readEnd i)
    (h2 : st.inFd = if i = 0 then 0 else readEnd (i - 1)) :
    (loopBody i st).events = st.events ++ stageTrace i := by
  simp only [loopBody, stageTrace, writeEnd, h1, h2]

lemma loopBody_nextFd (i : Nat) (st : OrchSt) (h1 : st.nextFd = readEnd i) :
    (loopBody i st).nextFd = readEnd (i + 1) := by
  simp only [loopBody, h1, readEnd]
  omega

lemma loopBody_inFd (i : Nat) (st : OrchSt) (h1 : st.nextFd = readEnd i) :
    (loopBody i st).inFd = readEnd i := by
  simp only [loopBody, h1]

lemma runLoop_spec (k : Nat) : ∀ (i : Nat) (st : OrchSt),
    st.nextFd = readEnd i →
    st.inFd = (if i = 0 then 0 else readEnd (i - 1)) →
    (∀ x ∈ st.openFds, x < st.nextFd) →
    runLoop k i st =
      { nextFd := readEnd (i + k),
        inFd := if i + k = 0 then 0 else readEnd (i + k - 1),
        openFds := st.openFds ++ (List.range k).map (fun j => readEnd (i + j)),
        events := st.events ++
          ((List.range k).map (fun j => stageTrace (i + j))).flatten } := by
  induction k with
  | zero =>
    intro i st h1 h2 h3
    simp only [runLoop, List.range_zero, List.map_nil, List.flatten_nil,
      List.append_nil, Nat.add_zero]
    cases st
    simp_all
  | succ k ih =>
    intro i st h1 h2 h3
    have hb1 : (loopBody i st).nextFd = readEnd (i + 1) := loopBody_nextFd i st h1
    have hb2 : (loopBody i st).inFd = (if i + 1 = 0 then 0 else readEnd (i + 1 - 1)) := by
      simp [loopBody_inFd i st h1]
    have hb3 : ∀ x ∈ (loopBody i st).openFds, x < (loopBody i st).nextFd := by
      rw [loopBody_openFds i st h1 h3, hb1]
      intro x hx
      rcases List.mem_append.mp hx with hx | hx
      · have := h3 x hx
        rw [h1] at this
        simp only [readEnd] at *
        omega
      · simp only [List.mem_singleton] at hx
        subst hx
        simp only [readEnd]
        omega
    have := ih (i + 1) (loopBody i st) hb1 hb2 hb3
    rw [runLoop, this, loopBody_openFds i st h1 h3, loopBody_events i st h1 h2]
    have harith : i + 1 + k = i + (k + 1) := by omega
    have hrange : (List.range (k + 1)).map (fun j => readEnd (i + j)) =
        readEnd i :: (List.range k).map (fun j => readEnd (i + 1 + j)) := by
      rw [List.range_succ_eq_map, List.map_cons, List.map_map]
      congr 1
      apply List.map_congr_left
      intro j _
      simp only [Function.comp_apply]
      congr 1
      omega
    have hrange2 : (List.range (k + 1)).map (fun j => stageTrace (i + j)) =
        stageTrace i :: (List.range k).map (fun j => stageTrace (i + 1 + j)) := by
      rw [List.range_succ_eq_map, List.map_cons, List.map_map]
      congr 1
      apply List.map_congr_left
      intro j _
      simp only [Function.comp_apply]
      congr 1
      omega
    rw [hrange, hrange2, harith]
    simp [List.append_assoc, List.flatten_cons]

lemma forkPipes_spec (n : Nat) (h : 1 ≤ n) :
    forkPipes n =
      { nextFd := readEnd (n - 1),
        inFd := if n = 1 then 0 else readEnd (n - 2),
        openFds := (List.range (n - 1)).map readEnd,
        events := ((List.range (n - 1)).map stageTrace).flatten ++
          [PEvent.execSelf (n - 1) (if n = 1 then 0 else readEnd (n - 2)) 1] } := by
  have hrun := runLoop_spec (n - 1) 0 initSt (by simp [initSt, readEnd])
    (by simp [initSt]) (by simp [initSt])
  have hone : (0 + (n - 1) = 0) = (n = 1) := by
    apply propext
    omega
  have htwo : 0 + (n - 1) - 1 = n - 2 := by omega
  simp only [Nat.zero_add] at hrun
  unfold forkPipes
  rw [hrun]
  have hif : (if n - 1 = 0 then 0 else readEnd (n - 1 - 1)) =
      (if n = 1 then 0 else readEnd (n - 2)) := by
    rcases Nat.eq_or_lt_of_le h with h' | h'
    · simp [← h']
    · have hne1 : ¬ (n - 1 = 0) := by omega
      have hne2 : ¬ (n = 1) := by omega
      have heq : n - 1 - 1 = n - 2 := by omega
      rw [if_neg hne1, if_neg hne2, heq]
  simp only [hif, initSt, List.nil_append, List.append_assoc]

lemma stageTrace_no_wait (i : Nat) : (stageTrace i).filter isWaitEvent = [] := by
  simp [stageTrace, isWaitEvent]

lemma flatten_filter_nil {p : PEvent → Bool} (L : List (List PEvent))
    (h : ∀ l ∈ L, l.filter p = []) : L.flatten.filter p = [] := by
  induction L with
  | nil => simp
  | cons a t ih =>
    rw [List.flatten_cons, List.filter_append, h a (by simp)]
    simp only [List.nil_append]
    exact ih (fun l hl => h l (by simp [hl]))

lemma writeEnd_not_mem_readEnds (i : Nat) (k : Nat) :
    writeEnd i ∉ (List.range k).map readEnd := by
  intro hmem
  rcases List.mem_map.mp hmem with ⟨j, _, hj⟩
  simp only [readEnd, writeEnd] at hj
  omega

/-! ## Claims about `src/c/pipe.c` -/

/-- Claim C1 (confirmed): for every pipeline of `n ≥ 1` stages,
`fork_pipes` processes stages `0 .. n-2` in order, allocating a fresh pipe
per stage and spawning a child whose standard input is the rolling
current-input descriptor (the original standard input, descriptor 0, for
stage 0; the previous pipe's read end otherwise) and whose standard output
is the new pipe's write end, the orchestrator closing its copy of that
write end after each spawn; the final stage `n-1` is not spawned as a
child but exec'd directly in the orchestrator's own process, with standard
input the last pipe's read end (the rolling input; the original standard
input when `n = 1` and no pipe exists) and standard output the original
descriptor 1. -/
theorem c1_pipeline_wiring (n : Nat) (h : 1 ≤ n) :
    (forkPipes n).events =
      ((List.range (n - 1)).map stageTrace).flatten ++
        [PEvent.execSelf (n - 1) (if n = 1 then 0 else readEnd (n - 2)) 1] := by
  rw [forkPipes_spec n h]

theorem c1_pipeline_wiring_witness :
    1 ≤ 3 ∧
    (forkPipes 3).events =
      ((List.range (3 - 1)).map stageTrace).flatten ++
        [PEvent.execSelf (3 - 1) (if 3 = 1 then 0 else readEnd (3 - 2)) 1] :=
  ⟨by decide, c1_pipeline_wiring 3 (by decide)⟩

/-- Claim C2 (counterexample): for the two-stage pipeline, `fork_pipes`
creates one child but performs no wait at all, refuting the claim that the
orchestrator waits for every child it created before reporting pipeline
completion. -/
theorem c2_counterexample_no_wait :
    ((forkPipes 2).events.filter isSpawnEvent).length = 1 ∧
    ((forkPipes 2).events.filter isWaitEvent).length = 0 := by
  decide

/-- Claim C2 (amended): `fork_pipes` never calls a wait-family function at
all — its event trace contains no wait event for any `n ≥ 1`; instead of
waiting, it replaces its own process image with the terminal stage
(`execSelf`), so the terminal stage's exit status reaches the
orchestrator's parent without any spawned child being waited on. -/
theorem c2_amended_never_waits (n : Nat) (h : 1 ≤ n) :
    ((forkPipes n).events.filter isWaitEvent) = [] ∧
    PEvent.execSelf (n - 1) (if n = 1 then 0 else readEnd (n - 2)) 1 ∈
      (forkPipes n).events := by
  constructor
  · rw [forkPipes_spec n h]
    simp only [List.filter_append]
    rw [flatten_filter_nil _ (by
      intro l hl
      rcases List.mem_map.mp hl with ⟨i, _, hi⟩
      rw [← hi]
      exact stageTrace_no_wait i)]
    simp [isWaitEvent]
  · rw [forkPipes_spec n h]
    simp

theorem c2_amended_never_waits_witness :
    1 ≤ 2 ∧
    (((forkPipes 2).events.filter isWaitEvent) = [] ∧
      PEvent.execSelf (2 - 1) (if 2 = 1 then 0 else readEnd (2 - 2)) 1 ∈
        (forkPipes 2).events) :=
  ⟨by decide, c2_amended_never_waits 2 (by decide)⟩

/-- Claim C3 (code bug): in `pipe.c`, when `execvp` fails in the child
side of `spawn_proc` (here: stage 1 with standard input the first pipe's
read end and standard output the second pipe's write end), the child
prints no diagnostic and does not exit; `return execvp(...)` returns `-1`
from `spawn_proc` inside the child, which therefore falls through and
continues running the orchestrator's own loop code — contradicting the
required fork-exec discipline that `stage1_shell.c` implements (diagnostic
plus `exit(1)`). -/
theorem c3_exec_failure_falls_through :
    spawnProcChild (readEnd 0) (writeEnd 1) 1 false =
      ([ChildAct.dup2 (readEnd 0) 0, ChildAct.closeFd (readEnd 0),
        ChildAct.dup2 (writeEnd 1) 1, ChildAct.closeFd (writeEnd 1),
        ChildAct.execvp 1],
       ChildTermination.returnedToCaller (-1)) := by
  decide

/-- Claim C4 (counterexample): after the two-stage pipeline reaches its
terminal exec, the orchestrating process still holds open the read end of
pipe 0 — the claim that it holds no descriptors beyond those it held
before the pipeline began is false. -/
theorem c4_counterexample_leaked_read_end :
    (forkPipes 2).openFds = [readEnd 0] ∧ (forkPipes 2).openFds ≠ [] := by
  decide

/-- Claim C4 (amended): after spawning non-terminal stage `i`, the
orchestrator does unconditionally close its copy of that stage's pipe
write end (the close event is in the trace, and no write end is among the
descriptors it still holds), but it never closes the read ends of the
pipes it created: at the terminal exec it still holds open exactly the
read ends of all `n - 1` pipes, which therefore leak into the terminal
stage's process image. -/
theorem c4_amended_write_ends_closed_read_ends_leak (n i : Nat)
    (h : 1 ≤ n) (hi : i < n - 1) :
    PEvent.parentClosed (writeEnd i) ∈ (forkPipes n).events ∧
    writeEnd i ∉ (forkPipes n).openFds ∧
    (forkPipes n).openFds = (List.range (n - 1)).map readEnd := by
  refine ⟨?_, ?_, ?_⟩
  · rw [forkPipes_spec n h]
    refine List.mem_append_left _ ?_
    rw [List.mem_flatten]
    refine ⟨stageTrace i, List.mem_map_of_mem _ (List.mem_range.mpr hi), ?_⟩
    simp [stageTrace]
  · rw [forkPipes_spec n h]
    exact writeEnd_not_mem_readEnds i (n - 1)
  · rw [forkPipes_spec n h]

theorem c4_amended_witness :
    1 ≤ 3 ∧ 0 < 3 - 1 ∧
    (PEvent.parentClosed (writeEnd 0) ∈ (forkPipes 3).events ∧
      writeEnd 0 ∉ (forkPipes 3).openFds ∧
      (forkPipes 3).openFds = (List.range (3 - 1)).map readEnd) :=
  ⟨by decide, by decide,
    c4_amended_write_ends_closed_read_ends_leak 3 0 (by decide) (by decide)⟩

/-! ## Claims about `src/c/stage1_shell.c` -/

/-- Claim C5 (confirmed): the builtin `cd` is dispatched into the forked
child (as every command is in the interactive shell loop); for every path
argument and oracle, the parent shell's own working directory is unchanged
by the iteration, while the directory change is visible only in the
child's copy of the state (the child's directory becomes the target when
`chdir` succeeds, and stays as inherited otherwise). -/
theorem c5_cd_leaves_parent_cwd_unchanged (cwd0 line path : String)
    (rest : List String) (forkOk : Bool) (chdirOk execOk : String → Bool)
    (h : tokenize line = "cd" :: path :: rest) :
    (shellIter cwd0 line forkOk chdirOk execOk).parentCwd = cwd0 ∧
    (forkOk = true →
      ((shellIter cwd0 line forkOk chdirOk execOk).child.map ChildRun.cwd) =
        some (if chdirOk path then path else cwd0)) := by
  cases forkOk <;> cases hc : chdirOk path <;>
    simp [shellIter, h, runChild, hc]

theorem c5_cd_leaves_parent_cwd_unchanged_witness :
    tokenize "cd /tmp" = "cd" :: "/tmp" :: [] ∧
    ((shellIter "/home" "cd /tmp" true (fun _ => true) (fun _ => true)).parentCwd =
        "/home" ∧
      (true = true →
        ((shellIter "/home" "cd /tmp" true (fun _ => true)
            (fun _ => true)).child.map ChildRun.cwd) =
          some (if (fun (_ : String) => true) "/tmp" then "/tmp" else "/home"))) :=
  ⟨by decide,
    c5_cd_leaves_parent_cwd_unchanged "/home" "cd /tmp" "/tmp" [] true
      (fun _ => true) (fun _ => true) (by decide)⟩

/-- Claim C6 (counterexample): on `cd /nonexistent` with a failing
`chdir`, the child does print the diagnostic `perror("chdir() result")`,
but it does not terminate with a non-zero status at all — `cwd()` prints
and control falls through into the child's own copy of the shell loop, so
the conjunct "the dispatched command's exit status is non-zero" is false. -/
theorem c6_counterexample_no_nonzero_exit :
    ((shellIter "/home" "cd /nonexistent" true (fun _ => false)
        (fun _ => true)).child.map
          (fun c => (c.events, childExitedNonzero c, c.result))) =
      some ([SEvent.stderrMsg "chdir() result",
             SEvent.stdoutMsg "Current Working Directory: /home"],
            false, ChildResult.fellThroughToLoop) := by
  decide

/-- Claim C6 (amended): for every failing invocation of the builtin `cd`
(missing path argument, or `chdir` failing on the given path), a
diagnostic is written to standard error and the parent shell loop is not
terminated — it continues accepting input after `waitpid` — but the
dispatched child produces no non-zero exit status: it prints the current
directory and falls through into its own copy of the shell loop. -/
theorem c6_amended_cd_failure_diag_no_exit (cwd0 line path : String)
    (rest : List String) (chdirOk execOk : String → Bool)
    (h : (tokenize line = "cd" :: path :: rest ∧ chdirOk path = false) ∨
         tokenize line = ["cd"]) :
    ((shellIter cwd0 line true chdirOk execOk).child.map ChildRun.events) =
      some [SEvent.stderrMsg "chdir() result",
            SEvent.stdoutMsg ("Current Working Directory: " ++ cwd0)] ∧
    ((shellIter cwd0 line true chdirOk execOk).child.map ChildRun.result) =
      some ChildResult.fellThroughToLoop ∧
    (shellIter cwd0 line true chdirOk execOk).loopResult =
      LoopResult.continueLoop := by
  rcases h with ⟨h, hc⟩ | h <;> simp [shellIter, h, runChild, *]

theorem c6_amended_cd_failure_diag_no_exit_witness :
    ((tokenize "cd /nonexistent" = "cd" :: "/nonexistent" :: [] ∧
        (fun (_ : String) => false) "/nonexistent" = false) ∨
      tokenize "cd /nonexistent" = ["cd"]) ∧
    (((shellIter "/home" "cd /nonexistent" true (fun _ => false)
          (fun _ => true)).child.map ChildRun.events) =
        some [SEvent.stderrMsg "chdir() result",
              SEvent.stdoutMsg ("Current Working Directory: " ++ "/home")] ∧
      ((shellIter "/home" "cd /nonexistent" true (fun _ => false)
          (fun _ => true)).child.map ChildRun.result) =
        some ChildResult.fellThroughToLoop ∧
      (shellIter "/home" "cd /nonexistent" true (fun _ => false)
          (fun _ => true)).loopResult = LoopResult.continueLoop) :=
  ⟨Or.inl ⟨by decide, by decide⟩,
    c6_amended_cd_failure_diag_no_exit "/home" "cd /nonexistent" "/nonexistent"
      [] (fun _ => false) (fun _ => true) (Or.inl ⟨by decide, by decide⟩)⟩

/-- Claim C7 (counterexample): when `fork` fails on the input line `ls`,
the shell does print `perror("Fork failed")`, but then calls `exit(1)` —
the entire shell terminates instead of continuing to the next input line,
so the claim that the Shell Loop continues is false. -/
theorem c7_counterexample_shell_exits :
    (shellIter "/home" "ls" false (fun _ => true) (fun _ => true)).loopResult =
      LoopResult.exitedShell 1 ∧
    LoopResult.exitedShell 1 ≠ LoopResult.continueLoop := by
  decide

/-- Claim C7 (amended): when `fork` fails on any non-blank input line, the
failure is surfaced as the diagnostic `Fork failed` on standard error, no
child is created, and the whole shell exits with status 1 — the loop does
not continue to the next input line. -/
theorem c7_amended_fork_failure_exits_shell (cwd0 line : String)
    (chdirOk execOk : String → Bool) (h : tokenize line ≠ []) :
    (shellIter cwd0 line false chdirOk execOk).parentEvents =
      [SEvent.stderrMsg "Fork failed"] ∧
    (shellIter cwd0 line false chdirOk execOk).loopResult =
      LoopResult.exitedShell 1 ∧
    (shellIter cwd0 line false chdirOk execOk).forkedChild = false := by
  rcases he : tokenize line with _ | ⟨p, t⟩
  · exact absurd he h
  · simp [shellIter, he]

theorem c7_amended_fork_failure_exits_shell_witness :
    tokenize "ls" ≠ [] ∧
    ((shellIter "/home" "ls" false (fun _ => true) (fun _ => true)).parentEvents =
        [SEvent.stderrMsg "Fork failed"] ∧
      (shellIter "/home" "ls" false (fun _ => true) (fun _ => true)).loopResult =
        LoopResult.exitedShell 1 ∧
      (shellIter "/home" "ls" false (fun _ => true)
          (fun _ => true)).forkedChild = false) :=
  ⟨by decide,
    c7_amended_fork_failure_exits_shell "/home" "ls" (fun _ => true)
      (fun _ => true) (by decide)⟩

/-- Claim C8 (confirmed): for every input line that tokenizes to zero
stages (empty or all-space, since the separator is the space character),
the shell loop creates no process, prints nothing, does not wait, leaves
its state unchanged, and silently continues to the next prompt. -/
theorem c8_blank_line_silently_reprompts (cwd0 line : String) (forkOk : Bool)
    (chdirOk execOk : String → Bool) (h : tokenize line = []) :
    shellIter cwd0 line forkOk chdirOk execOk =
      { parentCwd := cwd0, parentEvents := [],
        loopResult := LoopResult.continueLoop,
        forkedChild := false, waitedOnChild := false, child := none } := by
  simp [shellIter, h]

theorem c8_blank_line_silently_reprompts_witness :
    tokenize "   " = [] ∧
    shellIter "/home" "   " true (fun _ => true) (fun _ => true) =
      { parentCwd := "/home", parentEvents := [],
        loopResult := LoopResult.continueLoop,
        forkedChild := false, waitedOnChild := false, child := none } :=
  ⟨by decide,
    c8_blank_line_silently_reprompts "/home" "   " true (fun _ => true)
      (fun _ => true) (by decide)⟩

/-- Claim C10 (confirmed): `get_input` stores token pointers into a fixed
8-slot allocation with no bounds check; for every line of at most 7
tokens every store (including the terminating null entry) hits an index
below 8, and for every line of 8 or more tokens some store is issued at
an index at or past the end of the allocation. -/
theorem c10_get_input_bounds :
    (∀ line : String, (tokenize line).length ≤ 7 →
      (getInputStores line).all (fun idx => decide (idx < 8)) = true) ∧
    (∀ line : String, 8 ≤ (tokenize line).length →
      (getInputStores line).any (fun idx => decide (8 ≤ idx)) = true) := by
  constructor
  · intro line h
    rw [List.all_eq_true]
    intro idx hidx
    simp only [decide_eq_true_eq]
    rcases List.mem_append.mp hidx with hm | hm
    · have := List.mem_range.mp hm
      omega
    · simp only [List.mem_singleton] at hm
      omega
  · intro line h
    rw [List.any_eq_true]
    refine ⟨(tokenize line).length, ?_, by simpa using h⟩
    exact List.mem_append_right _ (by simp)

theorem c10_get_input_bounds_witness :
    ((tokenize "a b c").length ≤ 7 ∧
      (getInputStores "a b c").all (fun idx => decide (idx < 8)) = true) ∧
    (8 ≤ (tokenize "a b c d e f g h").length ∧
      (getInputStores "a b c d e f g h").any (fun idx => decide (8 ≤ idx)) =
        true) :=
  ⟨⟨by decide, c10_get_input_bounds.1 "a b c" (by decide)⟩,
    ⟨by decide, c10_get_input_bounds.2 "a b c d e f g h" (by decide)⟩⟩

/-! ## Claim about `src/c/cd.c` -/

/-- Claim C9 (confirmed): the standalone directory-change utility exits
with code 1 whenever invoked with an argument count other than exactly
one path argument (`argc != 2`); on a successful directory change it
exits with code 0 and prints the resulting working directory; on a failed
`chdir` it prints the diagnostic `perror("chdir() result")` first. -/
theorem c9_cd_utility (argv : List String) (prog pGood pBad startCwd : String)
    (chdirOk : String → Bool) (getcwdOk : Bool)
    (hlen : argv.length ≠ 2) (hGood : chdirOk pGood = true)
    (hBad : chdirOk pBad = false) :
    (cdMain argv startCwd chdirOk getcwdOk).exitCode = 1 ∧
    ((cdMain [prog, pGood] startCwd chdirOk true).exitCode = 0 ∧
      (cdMain [prog, pGood] startCwd chdirOk true).output =
        [COut.toStdout ("Current Working Directory: " ++ pGood)]) ∧
    (cdMain [prog, pBad] startCwd chdirOk getcwdOk).output.head? =
      some (COut.toStderr "chdir() result") := by
  refine ⟨?_, ?_, ?_⟩
  · rcases argv with _ | ⟨a, _ | ⟨b, _ | ⟨c, tl⟩⟩⟩
    · simp [cdMain]
    · simp [cdMain]
    · simp at hlen
    · simp [cdMain]
  · simp [cdMain, hGood]
  · simp [cdMain, hBad]

theorem c9_cd_utility_witness :
    ([ "cd" ] : List String).length ≠ 2 ∧
    (fun p => decide (p = "/tmp")) "/tmp" = true ∧
    (fun p => decide (p = "/tmp")) "/nope" = false ∧
    ((cdMain ["cd"] "/" (fun p => decide (p = "/tmp")) true).exitCode = 1 ∧
      ((cdMain ["cd", "/tmp"] "/" (fun p => decide (p = "/tmp")) true).exitCode = 0 ∧
        (cdMain ["cd", "/tmp"] "/" (fun p => decide (p = "/tmp")) true).output =
          [COut.toStdout ("Current Working Directory: " ++ "/tmp")]) ∧
      (cdMain ["cd", "/nope"] "/" (fun p => decide (p = "/tmp")) true).output.head? =
        some (COut.toStderr "chdir() result")) :=
  ⟨by decide, by decide, by decide,
    c9_cd_utility ["cd"] "cd" "/tmp" "/nope" "/" (fun p => decide (p = "/tmp"))
      true (by decide) (by decide) (by decide)⟩
